import Mathlib

/-!
Verification of the process-supervision subsystem of SmartSim
(`smartsim/launcher/taskManager.py`): the `Task` wrapper, the
`TaskManager` polling loop, and the failure-record store.

The embedding is a shallow one.  The external process handle
(`subprocess.Popen`) is modelled by the structure `Proc`; the classes
`Task` and `TaskManager` and their methods are translated function by
function from the Python source.  Python exceptions are modelled with
`Except String` (the string names the Python exception class), and
`dict` / `list` state is modelled with association lists and lists.

Two low-level points of Python semantics matter and are modelled
explicitly:

* The source line `if task.has_piped_io:` does not call the method
  `has_piped_io`; it tests the truthiness of the bound-method object,
  which is always `True`.  This is captured by `Task.has_piped_io_truthy`.
* The loop `for task in self.tasks:` iterates with a list iterator that
  holds a plain index.  When `remove_task` removes the current element,
  the following element shifts into its slot and the iterator's next
  step (index `i + 1`) skips it.  The sweep `sweepAux` reproduces this
  index semantics exactly.
-/

namespace SmartSimTM

/-- Model of the external process handle (`subprocess.Popen`), the
collaborator the spec treats as externally supplied.  `stdoutPiped` /
`stderrPiped` say whether the corresponding stream was opened as a pipe
(in Python the stream attribute is a truthy object exactly when piped,
and `None` otherwise); `stdoutData` / `stderrData` are the decoded bytes
buffered in the pipes; `exitedCode` is `some c` once the process has
exited with code `c` and `none` while it is still running. -/
structure Proc where
  pid : Nat
  stdoutPiped : Bool
  stderrPiped : Bool
  stdoutData : String
  stderrData : String
  exitedCode : Option Int
deriving DecidableEq, Repr

/-- `Popen.poll()`: non-blocking; returns the exit code once the process
has exited, `None` while it is still running. -/
def Proc.poll (p : Proc) : Option Int :=
  p.exitedCode

/-- `Popen.kill()` (via `send_signal`): `send_signal` skips a process
whose termination has already been observed, and a SIGKILL delivered to
an already-exited (zombie) process is discarded by the operating system;
in both cases the call returns normally and changes nothing.  A running
process is force-terminated (exit code -9 under SIGKILL). -/
def Proc.kill (p : Proc) : Proc :=
  if p.exitedCode.isSome then p else { p with exitedCode := some (-9) }

/-- `Task` (taskManager.py line 126): a wrapper around one `Popen` plus
the launcher-assigned step id. -/
structure Task where
  process : Proc
  step_id : String
deriving DecidableEq, Repr

/-- `Task.has_piped_io` (line 143), the method's return value:
`if self.process.stdout or self.process.stderr: return True; return False`. -/
def Task.has_piped_io (t : Task) : Bool :=
  t.process.stdoutPiped || t.process.stderrPiped

/-- Truth value of the expression `task.has_piped_io` as it appears in
`TaskManager.run` (line 75).  The source omits the call parentheses, so
the `if` tests the truthiness of the bound-method object itself, which
is always `True` in Python, whatever `has_piped_io()` would return. -/
def Task.has_piped_io_truthy (_t : Task) : Bool :=
  true

/-- `Task.check_status` (line 155): `return self.process.poll()`. -/
def Task.check_status (t : Task) : Option Int :=
  t.process.poll

/-- `Task.get_io` (line 163): `output, error = self.process.communicate()`
then `output.decode("utf-8"), error.decode("utf-8")`.  For a stream that
was not opened as a pipe, `communicate()` returns `None` in that slot,
and `None.decode` raises `AttributeError`; so the call succeeds (returns
`some`) exactly when both streams are piped, and fails (`none`,
modelling the raised `AttributeError`) otherwise. -/
def Task.get_io (t : Task) : Option (String × String) :=
  match t.process.stdoutPiped, t.process.stderrPiped with
  | true, true => some (t.process.stdoutData, t.process.stderrData)
  | _, _ => none

/-- `Task.kill` (line 172): `self.process.kill()`. -/
def Task.kill (t : Task) : Task :=
  { t with process := t.process.kill }

/-- `Task.pid` property (line 176). -/
def Task.pid (t : Task) : Nat :=
  t.process.pid

/-- Python `dict` update `d[k] = v` on an association list: overwrites
the value at an existing key in place, otherwise appends the new entry
(insertion order preserved, as in a Python dict). -/
def dictInsert (k : String) (v : Int × String × String) :
    List (String × Int × String × String) → List (String × Int × String × String)
  | [] => [(k, v)]
  | (k', v') :: rest => if k' = k then (k, v) :: rest else (k', v') :: dictInsert k v rest

/-- Python `dict` lookup `d[k]` on an association list; `none` models
the raised `KeyError`. -/
def dictGet (k : String) :
    List (String × Int × String × String) → Option (Int × String × String)
  | [] => none
  | (k', v) :: rest => if k' = k then some v else dictGet k rest

/-- Python `list.remove(x)`: removes the first element equal to `x`;
`none` models the raised `ValueError` when no element matches.  (Python
compares `Task` objects by identity; the model uses value equality,
which coincides for the distinct tasks the claims are about.) -/
def removeFirst (t : Task) : List Task → Option (List Task)
  | [] => none
  | x :: xs => if x = t then some xs else (removeFirst t xs).map (fun l => x :: l)

/-- `TaskManager` state (lines 37-42): `actively_monitoring` flag,
`statuses` dict of failure records `(returncode, output, error)` keyed
by step id, and the `tasks` list.  The diagnostic `name` field (derived
from the wall clock) and the verbose logging only feed the log sink and
are elided. -/
structure TaskManager where
  actively_monitoring : Bool
  statuses : List (String × Int × String × String)
  tasks : List Task
deriving DecidableEq, Repr

/-- Class attribute `interval = 3` (line 35): seconds between sweeps
(real time, irrelevant to the state transitions). -/
def TaskManager.interval : Nat := 3

/-- `TaskManager.add_task` (line 87): wraps the handle and step id in a
new `Task` and appends it to `tasks`.  Nothing else is touched: in
particular the monitoring flag is not set and no loop is started. -/
def TaskManager.add_task (tm : TaskManager) (popen_process : Proc) (step_id : String) :
    TaskManager :=
  { tm with tasks := tm.tasks ++ [⟨popen_process, step_id⟩] }

/-- `TaskManager.remove_task` (line 100): `self.tasks.remove(task)` then
`task.kill()`.  When the task is absent, `list.remove` raises
`ValueError` (modelled by `none`) and the `kill` line is never reached,
so the manager is unchanged and the handle is not killed.  On success
the result pairs the updated manager with the killed task. -/
def TaskManager.remove_task (tm : TaskManager) (task : Task) :
    Option (TaskManager × Task) :=
  match removeFirst task tm.tasks with
  | none => none
  | some ts => some ({ tm with tasks := ts }, Task.kill task)

/-- `TaskManager.get_task_status` (line 111): `return self.statuses[step_id]`;
`none` models the raised `KeyError`. -/
def TaskManager.get_task_status (tm : TaskManager) (step_id : String) :
    Option (Int × String × String) :=
  dictGet step_id tm.statuses

/-- `TaskManager.__getitem__` (line 119): linear search of `tasks` for a
matching step id; `none` models the raised `KeyError`. -/
def TaskManager.getitem (tm : TaskManager) (step_id : String) : Option Task :=
  tm.tasks.find? (fun t => t.step_id = step_id)

/-- One sweep of the polling loop body (lines 70-80), iterating from
index `i` with Python list-iterator semantics: each step processes
`tasks[i]` and moves to `i + 1` whether or not an element was removed,
so a removal makes the element that shifted into slot `i` be skipped.
The first component collects the step ids on which `check_status` was
invoked; the second is the resulting state, or the Python exception that
aborts the sweep (and kills the monitoring thread).  `fuel` bounds the
iteration count; `tasks.length - i` decreases at every step, so the
wrapper `sweep` supplies enough fuel for the fall-back `([], ok)` to be
taken only when `i` has already passed the end of the list. -/
def sweepAux : Nat → TaskManager → Nat → List String × Except String TaskManager
  | 0, tm, _ => ([], Except.ok tm)
  | fuel+1, tm, i =>
    if h : i < tm.tasks.length then
      match Task.check_status (tm.tasks.get ⟨i, h⟩) with
      | some rc =>
        if rc ≠ 0 then
          -- `if returncode and returncode != 0:` — a non-zero exit code.
          -- `output, error = "", ""` then `if task.has_piped_io:` (always
          -- truthy, see has_piped_io_truthy) overwrites them via get_io.
          match (if Task.has_piped_io_truthy (tm.tasks.get ⟨i, h⟩)
                 then Task.get_io (tm.tasks.get ⟨i, h⟩)
                 else some ("", "")) with
          | none => ([(tm.tasks.get ⟨i, h⟩).step_id], Except.error "AttributeError")
          | some (output, error) =>
            match TaskManager.remove_task
                { tm with statuses :=
                    dictInsert (tm.tasks.get ⟨i, h⟩).step_id (rc, output, error) tm.statuses }
                (tm.tasks.get ⟨i, h⟩) with
            | none => ([(tm.tasks.get ⟨i, h⟩).step_id], Except.error "ValueError")
            | some (tm2, _) =>
              ((tm.tasks.get ⟨i, h⟩).step_id :: (sweepAux fuel tm2 (i+1)).1,
               (sweepAux fuel tm2 (i+1)).2)
        else
          -- `elif returncode == 0:` — clean exit: remove (and kill), no record.
          match TaskManager.remove_task tm (tm.tasks.get ⟨i, h⟩) with
          | none => ([(tm.tasks.get ⟨i, h⟩).step_id], Except.error "ValueError")
          | some (tm2, _) =>
            ((tm.tasks.get ⟨i, h⟩).step_id :: (sweepAux fuel tm2 (i+1)).1,
             (sweepAux fuel tm2 (i+1)).2)
      | none =>
        -- still running: left untouched this cycle
        ((tm.tasks.get ⟨i, h⟩).step_id :: (sweepAux fuel tm (i+1)).1,
         (sweepAux fuel tm (i+1)).2)
    else ([], Except.ok tm)

/-- One full `for task in self.tasks:` sweep, from index 0.  The fuel
`tm.tasks.length` is exact: the index grows by one per iteration and the
list never grows during a sweep. -/
def sweep (tm : TaskManager) : List String × Except String TaskManager :=
  sweepAux tm.tasks.length tm 0

/-- One iteration of the `while self.actively_monitoring:` body (lines
62-85, the sleep elided): sweep all tasks, then
`if len(self.tasks) == 0: self.actively_monitoring = False`. -/
def runCycle (tm : TaskManager) : Except String TaskManager :=
  match (sweep tm).2 with
  | Except.error e => Except.error e
  | Except.ok tm' =>
    Except.ok (if tm'.tasks.length = 0 then { tm' with actively_monitoring := false } else tm')

/-- The `while self.actively_monitoring:` loop, cut off after `fuel`
cycles (the Python loop runs unboundedly while tasks remain alive). -/
def runLoop : Nat → TaskManager → Except String TaskManager
  | 0, tm => Except.ok tm
  | n+1, tm =>
    if tm.actively_monitoring then
      match runCycle tm with
      | Except.error e => Except.error e
      | Except.ok tm' => runLoop n tm'
    else Except.ok tm

/-- `TaskManager.run` (line 49): set `actively_monitoring = True`, then
loop; observed for `fuel` cycles. -/
def TaskManager.run (fuel : Nat) (tm : TaskManager) : Except String TaskManager :=
  runLoop fuel { tm with actively_monitoring := true }

/-! Concrete states used to instantiate the claims. -/

/-- A handle with neither stream piped that exited with code 3. -/
def tNoPipe1 : Task := ⟨⟨101, false, false, "", "", some 3⟩, "s1"⟩

/-- A manager tracking only `tNoPipe1`. -/
def tmC1 : TaskManager := ⟨true, [], [tNoPipe1]⟩

/-- Two tasks that both already exited cleanly, and a manager tracking
them in order. -/
def tA2 : Task := ⟨⟨21, false, false, "", "", some 0⟩, "a"⟩

/-- Second of the two cleanly exited tasks. -/
def tB2 : Task := ⟨⟨22, false, false, "", "", some 0⟩, "b"⟩

/-- Manager tracking `tA2` then `tB2`. -/
def tmC2 : TaskManager := ⟨true, [], [tA2, tB2]⟩

/-- Two still-running tasks and a manager tracking them. -/
def tmR : TaskManager :=
  ⟨true, [], [⟨⟨31, true, true, "o", "e", none⟩, "r1"⟩, ⟨⟨32, false, false, "", "", none⟩, "r2"⟩]⟩

/-- A handle with neither stream piped (exited cleanly). -/
def tNoPipe3 : Task := ⟨⟨103, false, false, "ignored", "ignored", some 0⟩, "s3"⟩

/-- A handle with neither stream piped that exited with code 5. -/
def tNoPipe4 : Task := ⟨⟨102, false, false, "", "", some 5⟩, "c4"⟩

/-- A manager tracking only `tNoPipe4`. -/
def tmC4 : TaskManager := ⟨true, [], [tNoPipe4]⟩

/-- Three tasks that all exited cleanly, and a manager tracking them. -/
def tmC5 : TaskManager :=
  ⟨false, [("old", (9, "", ""))],
   [⟨⟨51, false, false, "", "", some 0⟩, "z1"⟩,
    ⟨⟨52, true, true, "x", "y", some 0⟩, "z2"⟩,
    ⟨⟨53, false, false, "", "", some 0⟩, "z3"⟩]⟩

/-- A manager with one unrelated record and one unrelated live task. -/
def tmC6 : TaskManager :=
  ⟨false, [("x", (1, "", ""))], [⟨⟨9, false, false, "", "", none⟩, "y"⟩]⟩

/-- An idle manager with no tasks (monitoring flag still set). -/
def tmC7 : TaskManager := ⟨true, [("p", (2, "o", "e"))], []⟩

/-- A fresh handle to register after the loop has stopped. -/
def pC7 : Proc := ⟨77, true, true, "", "", none⟩

/-- The state `tmC7` reaches after its final cycle: flag cleared. -/
def tmC7stop : TaskManager := ⟨false, [("p", (2, "o", "e"))], []⟩

/-- A both-streams-piped handle that exited with code 4. -/
def tDead8 : Task := ⟨⟨7, true, true, "o", "e", some 4⟩, "w8"⟩

/-- A manager tracking only `tDead8`. -/
def tmC8 : TaskManager := ⟨false, [], [tDead8]⟩

/-- A task that is not tracked by `tmC10`. -/
def tX10 : Task := ⟨⟨11, true, false, "o", "", none⟩, "x10"⟩

/-- The one task tracked by `tmC10`. -/
def tY10 : Task := ⟨⟨12, false, false, "", "", some 0⟩, "y10"⟩

/-- A manager tracking only `tY10`. -/
def tmC10 : TaskManager := ⟨true, [], [tY10]⟩

/-!
Helper lemmas about the list and dict primitives, the sweep and the
loop, followed by one theorem per claim.
-/

/-- `list.remove` raises `ValueError` exactly on a missing element. -/
theorem removeFirst_eq_none {t : Task} :
    ∀ {l : List Task}, t ∉ l → removeFirst t l = none := by
  intro l
  induction l with
  | nil => intro _; rfl
  | cons x xs ih =>
    intro h
    have hx : ¬ x = t := fun hx => h (by rw [hx]; exact List.mem_cons_self t xs)
    unfold removeFirst
    rw [if_neg hx, ih (fun hm => h (List.mem_cons_of_mem _ hm))]
    rfl

/-- `list.remove` succeeds on a present element. -/
theorem removeFirst_of_mem {t : Task} :
    ∀ {l : List Task}, t ∈ l → ∃ l', removeFirst t l = some l' := by
  intro l
  induction l with
  | nil => intro h; exact absurd h (List.not_mem_nil t)
  | cons x xs ih =>
    intro h
    by_cases hx : x = t
    · exact ⟨xs, by unfold removeFirst; rw [if_pos hx]⟩
    · rcases List.mem_cons.mp h with h1 | h1
      · exact absurd h1.symm hx
      · obtain ⟨l', hl⟩ := ih h1
        exact ⟨x :: l', by unfold removeFirst; rw [if_neg hx, hl]; rfl⟩

/-- What `list.remove` keeps is a sublist of the original list, one
element shorter. -/
theorem removeFirst_sublist {t : Task} :
    ∀ {l l' : List Task}, removeFirst t l = some l' →
      l'.Sublist l ∧ l'.length + 1 = l.length := by
  intro l
  induction l with
  | nil => intro l' h; exact absurd h (by unfold removeFirst; simp)
  | cons x xs ih =>
    intro l' h
    unfold removeFirst at h
    by_cases hx : x = t
    · rw [if_pos hx] at h
      cases h
      exact ⟨List.sublist_cons_self x xs, rfl⟩
    · rw [if_neg hx] at h
      cases hrec : removeFirst t xs with
      | none => rw [hrec] at h; cases h
      | some ys =>
        rw [hrec] at h
        cases h
        obtain ⟨hs, hlen⟩ := ih hrec
        exact ⟨List.Sublist.cons₂ x hs, by simpa using hlen⟩

/-- `dict` lookup fails (KeyError) when no entry carries the key. -/
theorem dictGet_eq_none {k : String} :
    ∀ {l : List (String × Int × String × String)},
      (∀ e ∈ l, e.1 ≠ k) → dictGet k l = none := by
  intro l
  induction l with
  | nil => intro _; rfl
  | cons e rest ih =>
    intro h
    unfold dictGet
    rw [if_neg (h e (List.mem_cons_self e rest)), ih]
    intro e' he'
    exact h e' (List.mem_cons_of_mem _ he')

/-- A sweep over tasks that are all still running checks every one of
them (from index `i` on) and leaves the manager unchanged. -/
theorem sweepAux_all_running :
    ∀ (fuel : Nat) (tm : TaskManager) (i : Nat),
      tm.tasks.length ≤ fuel + i →
      (∀ t ∈ tm.tasks, Task.check_status t = none) →
      sweepAux fuel tm i = ((tm.tasks.drop i).map Task.step_id, Except.ok tm) := by
  intro fuel
  induction fuel with
  | zero =>
    intro tm i hf _
    unfold sweepAux
    rw [List.drop_eq_nil_of_le (by omega)]
    rfl
  | succ fuel ih =>
    intro tm i hf hr
    by_cases h : i < tm.tasks.length
    · have hc : Task.check_status (tm.tasks.get ⟨i, h⟩) = none :=
        hr _ (List.get_mem tm.tasks i h)
      unfold sweepAux
      rw [dif_pos h, hc, ih tm (i+1) (by omega) hr,
          List.get_eq_getElem, List.drop_eq_getElem_cons h]
      rfl
    · unfold sweepAux
      rw [dif_neg h, List.drop_eq_nil_of_le (by omega)]
      rfl

/-!
Claim C1.  The spec says the loop calls `get_io` only when the handle
has piped IO and stores `("", "")` for a failed non-piped task.  The
intent is visible in the source (`output, error = "", ""` before the
guard, and the docstring of `has_piped_io`), but line 75 writes
`if task.has_piped_io:` without calling the method, so the guard tests
a bound-method object and is always true; `get_io` then runs on the
non-piped handle and raises `AttributeError` (decoding `None`), killing
the sweep before any record is stored.
-/

/-- C1: on a tracked non-piped task that exited with code 3, the method
`has_piped_io` would answer `false`, yet the loop's guard evaluates to
`true` and the sweep dies with `AttributeError`; no failure record is
ever stored for the step id. -/
theorem claim_C1 :
    Task.has_piped_io tNoPipe1 = false ∧
    Task.has_piped_io_truthy tNoPipe1 = true ∧
    sweep tmC1 = (["s1"], Except.error "AttributeError") ∧
    TaskManager.get_task_status tmC1 "s1" = none :=
  ⟨rfl, rfl, rfl, rfl⟩

/-!
Claim C2.  The loop `for task in self.tasks:` iterates by index while
`remove_task` mutates the list in place, so removing a task makes the
task that shifts into its slot be skipped for the rest of that sweep.
-/

/-- C2 counterexample: with tasks `[tA2, tB2]` both already exited
cleanly, the sweep checks only `"a"`: `tB2` is present at the start of
the sweep but `check_status` is never called on it (its id is absent
from the trace), and it survives the sweep. -/
theorem claim_C2_counterexample :
    tB2 ∈ tmC2.tasks ∧
    (sweep tmC2).1 = ["a"] ∧
    "b" ∉ (sweep tmC2).1 ∧
    (sweep tmC2).2 = Except.ok { tmC2 with tasks := [tB2] } :=
  ⟨by decide, rfl, by decide, rfl⟩

/-- C2 amended: in a sweep during which no task is removed — in
particular whenever every tracked task is still running — `check_status`
is called on every task in the collection, in order; a removal instead
causes the element shifted into the removed slot to be skipped until the
next sweep (witnessed by the counterexample above). -/
theorem claim_C2 (tm : TaskManager)
    (h : ∀ t ∈ tm.tasks, Task.check_status t = none) :
    sweep tm = (tm.tasks.map Task.step_id, Except.ok tm) := by
  unfold sweep
  rw [sweepAux_all_running tm.tasks.length tm 0 (by omega) h]
  rfl

/-- C2 witness: both tasks of `tmR` are still running; one sweep checks
both, in order, and changes nothing. -/
theorem claim_C2_witness :
    sweep tmR = (["r1", "r2"], Except.ok tmR) :=
  claim_C2 tmR (by decide)

/-!
Claim C3.  The spec says `get_io` returns empty strings for a handle
without piped streams.  In the source, `communicate()` returns `None`
for a stream that is not a pipe and `None.decode("utf-8")` raises
`AttributeError`: the call fails instead of returning `("", "")`.
-/

/-- C3 counterexample: on the non-piped task `tNoPipe3`, `get_io` fails
(`none`, the raised `AttributeError`) and in particular does not return
the pair of empty strings. -/
theorem claim_C3_counterexample :
    Task.has_piped_io tNoPipe3 = false ∧
    Task.get_io tNoPipe3 = none ∧
    Task.get_io tNoPipe3 ≠ some ("", "") :=
  ⟨rfl, rfl, by decide⟩

/-- C3 amended: for every task whose handle was created without
capturable output/error streams (`has_piped_io` false), `get_io` fails
with `AttributeError` (modelled by `none`) rather than returning empty
strings. -/
theorem claim_C3 (t : Task) (h : Task.has_piped_io t = false) :
    Task.get_io t = none := by
  unfold Task.has_piped_io at h
  rcases Bool.or_eq_false_iff.mp h with ⟨h1, h2⟩
  unfold Task.get_io
  rw [h1, h2]

/-- C3 witness: the amended statement evaluated on `tNoPipe3`. -/
theorem claim_C3_witness :
    Task.has_piped_io tNoPipe3 = false ∧ Task.get_io tNoPipe3 = none :=
  ⟨rfl, claim_C3 tNoPipe3 rfl⟩

/-!
Claim C4.  For a piped task the failure path does store one record and
`get_task_status` returns it, but the claim quantifies over every
tracked task: for a non-piped task observed to exit non-zero, the same
missing-parentheses bug as in C1 sends the sweep into `get_io`, which
raises before the record is stored and before the task is removed.
-/

/-- C4: the non-piped task `tNoPipe4` exited with code 5; the sweep
observes `some 5` but aborts with `AttributeError`, so the task is not
removed and no failure record is stored (`get_task_status` still raises
`KeyError`). -/
theorem claim_C4 :
    Task.check_status tNoPipe4 = some 5 ∧
    sweep tmC4 = (["c4"], Except.error "AttributeError") ∧
    TaskManager.get_task_status tmC4 "c4" = none :=
  ⟨rfl, rfl, rfl⟩

/-!
Claim C6.  Both lookups fail with a distinguishable not-found condition
(`KeyError`, modelled by `none`): `get_task_status` on a step id with no
stored record, and `__getitem__` on a step id carried by no live task.
-/

/-- C6: the two lookups fail independently, each under its own absence
hypothesis — when no failure record carries `sid` (the id was never
registered, or its task is still running, or it exited cleanly),
`get_task_status` returns the not-found condition whatever `tasks`
holds; and when no live task carries `sid` (unknown id, or a failure
already drained into `statuses`), the `__getitem__` lookup returns
not-found whatever `statuses` holds.  Neither returns a default
record. -/
theorem claim_C6 (tm : TaskManager) (sid : String) :
    ((∀ e ∈ tm.statuses, e.1 ≠ sid) →
      TaskManager.get_task_status tm sid = none) ∧
    ((∀ t ∈ tm.tasks, t.step_id ≠ sid) →
      TaskManager.getitem tm sid = none) := by
  constructor
  · intro h1
    exact dictGet_eq_none h1
  · intro h2
    unfold TaskManager.getitem
    apply List.find?_eq_none.mpr
    intro t ht
    simp only [decide_eq_true_eq]
    exact h2 t ht

/-- C6 witness: `tmC6` stores a record for `"x"` and tracks a live task
with id `"y"`; the record lookup for the still-running id `"y"` (in
`tasks` but not in `statuses`) reports not-found, and the live-task
lookup for the drained-failure id `"x"` (in `statuses` but not in
`tasks`) reports not-found. -/
theorem claim_C6_witness :
    TaskManager.get_task_status tmC6 "y" = none ∧
    TaskManager.getitem tmC6 "x" = none :=
  ⟨(claim_C6 tmC6 "y").1 (by decide), (claim_C6 tmC6 "x").2 (by decide)⟩

/-!
Claim C8.  `kill` on an already-exited process: `send_signal` skips a
process whose termination was observed, and a SIGKILL to a zombie is
discarded, so a repeated `kill` (e.g. once inside `remove_task` and once
externally) returns normally and changes nothing.
-/

/-- C8: killing a task whose process has already exited is the identity
— a second kill after the one performed during eviction neither fails
(the model's `kill` is total) nor changes the task, and re-killing the
task inside any manager leaves the manager's state unchanged. -/
theorem claim_C8 (tm : TaskManager) (t : Task) (c : Int)
    (h : t.process.exitedCode = some c) :
    Task.kill t = t ∧
    Task.kill (Task.kill t) = Task.kill t ∧
    { tm with tasks := tm.tasks.map (fun x => if x = t then Task.kill x else x) } = tm := by
  have hp : Proc.kill t.process = t.process := by
    unfold Proc.kill
    rw [h]
    rfl
  have hk : Task.kill t = t := by
    unfold Task.kill
    rw [hp]
  refine ⟨hk, by rw [hk]; exact hk, ?_⟩
  have hmap : tm.tasks.map (fun x => if x = t then Task.kill x else x) = tm.tasks := by
    apply List.map_congr_left ?_ |>.trans (List.map_id tm.tasks)
    intro x _
    by_cases hx : x = t
    · rw [if_pos hx, hx]
      exact hk
    · exact if_neg hx
  rw [hmap]

/-- C8 witness: the exited task `tDead8`, killed twice, inside `tmC8`. -/
theorem claim_C8_witness :
    Task.kill tDead8 = tDead8 ∧
    Task.kill (Task.kill tDead8) = Task.kill tDead8 ∧
    { tmC8 with tasks := tmC8.tasks.map (fun x => if x = tDead8 then Task.kill x else x) } = tmC8 :=
  claim_C8 tmC8 tDead8 4 rfl

/-!
Claim C10.  `remove_task` on an absent task: `self.tasks.remove(task)`
raises `ValueError` before the `task.kill()` line runs, so the manager
is unchanged (the exception carries no new state) and the handle is not
killed; on the success path the kill happens after the removal, and the
killed task is exactly the evicted one.
-/

/-- C10: removing a task that is not tracked fails (`none`, the raised
`ValueError`) — the kill appears only on the success path, where the
removal yields the updated manager paired with the killed task. -/
theorem claim_C10 (tm : TaskManager) (t : Task) :
    (t ∉ tm.tasks → TaskManager.remove_task tm t = none) ∧
    (t ∈ tm.tasks →
      ∃ tm', TaskManager.remove_task tm t = some (tm', Task.kill t)) := by
  constructor
  · intro h
    unfold TaskManager.remove_task
    rw [removeFirst_eq_none h]
  · intro h
    obtain ⟨l', hl⟩ := removeFirst_of_mem h
    refine ⟨{ tm with tasks := l' }, ?_⟩
    unfold TaskManager.remove_task
    rw [hl]

/-- C10 witness: `tmC10` tracks only `tY10`; removing the untracked
`tX10` fails, removing `tY10` succeeds and kills it. -/
theorem claim_C10_witness :
    TaskManager.remove_task tmC10 tX10 = none ∧
    ∃ tm', TaskManager.remove_task tmC10 tY10 = some (tm', Task.kill tY10) :=
  ⟨(claim_C10 tmC10 tX10).1 (by decide), (claim_C10 tmC10 tY10).2 (by decide)⟩

/-- A sweep over tasks that have all exited cleanly succeeds (the
success branch raises nothing), leaves the statuses and the flag
untouched, keeps only a sublist of the original tasks, and — when
started at an index still inside the list — removes at least one. -/
theorem sweepAux_all_zero :
    ∀ (fuel : Nat) (tm : TaskManager) (i : Nat),
      tm.tasks.length ≤ fuel + i →
      (∀ t ∈ tm.tasks, Task.check_status t = some 0) →
      ∃ tr ts', sweepAux fuel tm i = (tr, Except.ok { tm with tasks := ts' }) ∧
        ts'.Sublist tm.tasks ∧
        (i < tm.tasks.length → ts'.length < tm.tasks.length) := by
  intro fuel
  induction fuel with
  | zero =>
    intro tm i hf _
    exact ⟨[], tm.tasks, rfl, List.Sublist.refl _, fun hi => absurd hi (by omega)⟩
  | succ fuel ih =>
    intro tm i hf hz
    by_cases h : i < tm.tasks.length
    · have hmem : tm.tasks.get ⟨i, h⟩ ∈ tm.tasks := List.get_mem tm.tasks i h
      have hc : Task.check_status (tm.tasks.get ⟨i, h⟩) = some 0 := hz _ hmem
      obtain ⟨l', hl⟩ := removeFirst_of_mem hmem
      obtain ⟨hsub, hlen⟩ := removeFirst_sublist hl
      have hrem : TaskManager.remove_task tm (tm.tasks.get ⟨i, h⟩) =
          some ({ tm with tasks := l' }, Task.kill (tm.tasks.get ⟨i, h⟩)) := by
        unfold TaskManager.remove_task
        rw [hl]
      have hz' : ∀ t ∈ ({ tm with tasks := l' } : TaskManager).tasks,
          Task.check_status t = some 0 := fun t ht => hz t (hsub.subset ht)
      obtain ⟨tr, ts', heq, hsub2, _⟩ :=
        ih { tm with tasks := l' } (i+1) (by show l'.length ≤ fuel + (i+1); omega) hz'
      refine ⟨(tm.tasks.get ⟨i, h⟩).step_id :: tr, ts', ?_, hsub2.trans hsub, ?_⟩
      · unfold sweepAux
        rw [dif_pos h]
        simp only [hc]
        rw [if_neg (by simp : ¬((0 : Int) ≠ 0))]
        rw [hrem]
        show ((tm.tasks.get ⟨i, h⟩).step_id ::
                (sweepAux fuel { tm with tasks := l' } (i+1)).1,
              (sweepAux fuel { tm with tasks := l' } (i+1)).2) = _
        rw [heq]
      · intro _
        have h1 : ts'.length ≤ l'.length := hsub2.length_le
        omega
    · exact ⟨[], tm.tasks, by unfold sweepAux; rw [dif_neg h],
        List.Sublist.refl _, fun hi => absurd hi h⟩

/-- A loop whose monitoring flag is off returns immediately. -/
theorem runLoop_not_monitoring :
    ∀ (k : Nat) (tm : TaskManager), tm.actively_monitoring = false →
      runLoop k tm = Except.ok tm := by
  intro k tm h
  cases k with
  | zero => rfl
  | succ n =>
    unfold runLoop
    rw [if_neg (by rw [h]; exact Bool.false_ne_true)]

/-- A cycle over an empty task list just clears the monitoring flag. -/
theorem runCycle_empty (tm : TaskManager) (h : tm.tasks = []) :
    runCycle tm = Except.ok { tm with actively_monitoring := false } := by
  obtain ⟨mon, sts, tks⟩ := tm
  cases h
  rfl

/-- Cleanly exited tasks all drain out within `length + 1` cycles: the
loop ends with the flag cleared, no tasks, and the statuses exactly as
they were. -/
theorem runLoop_all_zero :
    ∀ (n : Nat) (tm : TaskManager),
      tm.tasks.length ≤ n →
      (∀ t ∈ tm.tasks, Task.check_status t = some 0) →
      tm.actively_monitoring = true →
      ∃ tm', runLoop (n+1) tm = Except.ok tm' ∧
        tm'.tasks = [] ∧ tm'.statuses = tm.statuses ∧
        tm'.actively_monitoring = false := by
  intro n
  induction n with
  | zero =>
    intro tm hlen hz hm
    have hnil : tm.tasks = [] := List.length_eq_zero.mp (by omega)
    refine ⟨{ tm with actively_monitoring := false }, ?_, hnil, rfl, rfl⟩
    unfold runLoop
    rw [if_pos hm, runCycle_empty tm hnil]
    rfl
  | succ n ih =>
    intro tm hlen hz hm
    by_cases hnil : tm.tasks = []
    · refine ⟨{ tm with actively_monitoring := false }, ?_, hnil, rfl, rfl⟩
      unfold runLoop
      rw [if_pos hm, runCycle_empty tm hnil]
      exact runLoop_not_monitoring (n+1) _ rfl
    · have hpos : 0 < tm.tasks.length := List.length_pos.mpr hnil
      obtain ⟨tr, ts', heq, hsub, hdec⟩ :=
        sweepAux_all_zero tm.tasks.length tm 0 (by omega) hz
      have hdec' : ts'.length < tm.tasks.length := hdec hpos
      by_cases hts : ts' = []
      · subst hts
        have h1 : runCycle tm =
            Except.ok { tm with tasks := [], actively_monitoring := false } := by
          unfold runCycle sweep
          rw [heq]
          rfl
        refine ⟨{ tm with tasks := [], actively_monitoring := false }, ?_, rfl, rfl, rfl⟩
        unfold runLoop
        rw [if_pos hm, h1]
        exact runLoop_not_monitoring (n+1) _ rfl
      · have h1 : runCycle tm = Except.ok { tm with tasks := ts' } := by
          unfold runCycle sweep
          rw [heq]
          show Except.ok (if ts'.length = 0 then _ else _) = _
          rw [if_neg (fun hc => hts (List.length_eq_zero.mp hc))]
        have hz' : ∀ t ∈ ({ tm with tasks := ts' } : TaskManager).tasks,
            Task.check_status t = some 0 := fun t ht => hz t (hsub.subset ht)
        obtain ⟨tm', hrun, hta, hst, hfl⟩ :=
          ih { tm with tasks := ts' } (by show ts'.length ≤ n; omega) hz' hm
        refine ⟨tm', ?_, hta, hst, hfl⟩
        unfold runLoop
        rw [if_pos hm, h1]
        exact hrun

/-!
Claim C5.  A task observed to exit with code 0 goes down the
`elif returncode == 0:` branch: `remove_task` evicts it from `tasks` and
kills its handle, and the `statuses` dict is never touched — success is
silent.  (A removal makes the loop skip the next task for that sweep,
see C2, so draining `n` tasks can take several cycles; `n + 1` cycles
always suffice.)
-/

/-- C5: when every tracked task has exited cleanly, eviction always goes
through `remove_task`, which kills the evicted handle; running the loop
for `length + 1` cycles succeeds and ends with no tasks, the monitoring
flag cleared, and the failure-record store exactly as it was — no entry
was added for any of the clean exits. -/
theorem claim_C5 (tm : TaskManager)
    (h : ∀ t ∈ tm.tasks, Task.check_status t = some 0) :
    (∀ t ∈ tm.tasks, ∃ tm₂, TaskManager.remove_task tm t = some (tm₂, Task.kill t)) ∧
    ∃ tm', TaskManager.run (tm.tasks.length + 1) tm = Except.ok tm' ∧
      tm'.tasks = [] ∧ tm'.statuses = tm.statuses ∧
      tm'.actively_monitoring = false := by
  constructor
  · intro t ht
    obtain ⟨l', hl⟩ := removeFirst_of_mem ht
    exact ⟨{ tm with tasks := l' }, by unfold TaskManager.remove_task; rw [hl]⟩
  · unfold TaskManager.run
    exact runLoop_all_zero tm.tasks.length { tm with actively_monitoring := true }
      (le_refl _) h rfl

/-- C5 witness: three cleanly exited tasks (one of them piped) and a
pre-existing record; four cycles drain everything, the store keeps just
the old record, and each eviction kills the evicted handle. -/
theorem claim_C5_witness :
    (∀ t ∈ tmC5.tasks, ∃ tm₂, TaskManager.remove_task tmC5 t = some (tm₂, Task.kill t)) ∧
    ∃ tm', TaskManager.run 4 tmC5 = Except.ok tm' ∧
      tm'.tasks = [] ∧ tm'.statuses = tmC5.statuses ∧
      tm'.actively_monitoring = false :=
  claim_C5 tmC5 (by decide)

/-!
Claim C7.  When a cycle ends with `tasks` empty, the loop clears
`actively_monitoring` and exits, and nothing restarts it:
`TaskManager.add_task` only appends to `tasks` (it neither sets the flag
nor relaunches the loop), so after the stop the loop stays inert — a
newly added task is never polled until a caller restarts monitoring.
-/

/-- C7: a cycle that ends with no tasks has cleared the monitoring flag;
from then on the loop does nothing for any number of cycles, and after
an `add_task` the flag is still false and the loop still does nothing,
so the newly added task is not polled. -/
theorem claim_C7 (tm tm' : TaskManager)
    (h1 : runCycle tm = Except.ok tm') (h2 : tm'.tasks = []) :
    tm'.actively_monitoring = false ∧
    (∀ k, runLoop k tm' = Except.ok tm') ∧
    (∀ p sid, (TaskManager.add_task tm' p sid).actively_monitoring = false ∧
      ∀ k, runLoop k (TaskManager.add_task tm' p sid) =
        Except.ok (TaskManager.add_task tm' p sid)) := by
  have hflag : tm'.actively_monitoring = false := by
    unfold runCycle at h1
    cases hS : (sweep tm).2 with
    | error e => rw [hS] at h1; cases h1
    | ok tmS =>
      rw [hS] at h1
      simp only [Except.ok.injEq] at h1
      by_cases hz : tmS.tasks.length = 0
      · rw [if_pos hz] at h1
        rw [← h1]
      · rw [if_neg hz] at h1
        subst h1
        exact absurd (by rw [h2]; rfl) hz
  refine ⟨hflag, fun k => runLoop_not_monitoring k tm' hflag, fun p sid => ⟨hflag, ?_⟩⟩
  intro k
  exact runLoop_not_monitoring k _ hflag

/-- C7 witness: `tmC7` (no tasks, flag set) stops after one cycle at
`tmC7stop`; three further cycles change nothing, and after registering a
new handle the loop still changes nothing — the new task goes unpolled. -/
theorem claim_C7_witness :
    tmC7stop.actively_monitoring = false ∧
    runLoop 3 tmC7stop = Except.ok tmC7stop ∧
    runLoop 3 (TaskManager.add_task tmC7stop pC7 "new") =
      Except.ok (TaskManager.add_task tmC7stop pC7 "new") := by
  have h := claim_C7 tmC7 tmC7stop rfl rfl
  exact ⟨h.1, h.2.1 3, (h.2.2 pC7 "new").2 3⟩

end SmartSimTM
